import Mathlib

/-!
Stelliberty: the Windows runner entry point.

A shallow embedding of `wWinMain` from `windows/runner/main.cpp`.

`wWinMain` is a fixed sequence of calls into the operating system and the
Flutter toolkit.  The embedding makes two things explicit:

* the *environment* (`Env`): what each external call returns.  The program is
  deterministic, so the history of calls is fixed by the results seen so
  far, and one result per call (one per index for the repeated `GetMessage`)
  describes every possible behaviour of the outside world;
* the *run* (`Run`): the calls `wWinMain` makes in its body, in order and with
  their arguments, and the exit status once it has returned.

The message loop need not terminate, so `wWinMain` takes a bound `fuel` on
the number of `GetMessage` calls it is observed for.  A run that is still in
the loop when the bound is reached has `exit = none` and carries the calls
made so far.

The trace records the calls written in the body of `wWinMain`.  The
destructors that C++ runs for the locals at scope exit are not recorded, and
neither is the initialiser of the global `bdw`
(`bitsdojo_window_configure(BDW_CUSTOM_FRAME | BDW_HIDE_ON_STARTUP)`), which
runs before `wWinMain` is entered.

The first parameter of `wWinMain` is called `instance` in the source, a
reserved word here; it is `inst` below.
-/

set_option linter.unusedVariables false

namespace Runner

/-! ## Data -/

/-- Handles (`HINSTANCE`, `HWND`) are plain numbers. -/
abbrev HINSTANCE := Nat

/-- Window handle. -/
abbrev HWND := Nat

/-- The Win32 `MSG` record of `windows.h`, filled in by `GetMessage`. -/
structure MSG where
  hwnd : HWND
  message : Nat
  wParam : Nat
  lParam : Int
  time : Nat
  pt : Int × Int
  deriving DecidableEq, Repr

/-- Argument of `AttachConsole`: the parent process or a process id. -/
inductive ConsoleProcess where
  | ATTACH_PARENT_PROCESS
  | pid (id : Nat)
  deriving DecidableEq, Repr

/-- Concurrency model argument of `CoInitializeEx`. -/
inductive COINIT where
  | COINIT_APARTMENTTHREADED
  | COINIT_MULTITHREADED
  deriving DecidableEq, Repr

/-- Modelled from the spec: the toolkit's `flutter::UIThreadPolicy`, declared in
`flutter/dart_project.h`, which is not among the sources; the value
`RunOnSeparateThread` is the one the runner sets ("the managed UI runtime is
configured to run on a separate internal thread"). -/
inductive UIThreadPolicy where
  | Default
  | RunOnPlatformThread
  | RunOnSeparateThread
  deriving DecidableEq, Repr

/-- Modelled from the spec: the toolkit's `flutter::DartProject`, declared in
`flutter/dart_project.h`, which is not among the sources, as far as
`wWinMain` touches it: the path given to the constructor and the two
settings of the "startup configuration" it stores. -/
structure DartProject where
  path : String
  ui_thread_policy : UIThreadPolicy
  dart_entrypoint_arguments : List String
  deriving DecidableEq, Repr

/-- Modelled from the spec: the constructor `flutter::DartProject project(path)`
of the absent toolkit header; nothing is configured yet. -/
def DartProject.new (path : String) : DartProject :=
  { path := path, ui_thread_policy := UIThreadPolicy.Default, dart_entrypoint_arguments := [] }

/-- Modelled from the spec: the setter `project.set_ui_thread_policy(policy)`
of the absent toolkit header; it stores the policy. -/
def DartProject.set_ui_thread_policy (project : DartProject) (policy : UIThreadPolicy) :
    DartProject :=
  { project with ui_thread_policy := policy }

/-- Modelled from the spec: the setter
`project.set_dart_entrypoint_arguments(arguments)` of the absent toolkit
header; it stores the arguments. -/
def DartProject.set_dart_entrypoint_arguments (project : DartProject) (arguments : List String) :
    DartProject :=
  { project with dart_entrypoint_arguments := arguments }

/-- Modelled from the spec: the runner's `Win32Window::Point`, declared in
`win32_window.h`, which is not among the sources: the "initial position". -/
structure Point where
  x : Nat
  y : Nat
  deriving DecidableEq, Repr

/-- Modelled from the spec: the runner's `Win32Window::Size`, declared in
`win32_window.h`, which is not among the sources: the initial "size". -/
structure Size where
  width : Nat
  height : Nat
  deriving DecidableEq, Repr

/-- One external call made by `wWinMain`, with its arguments. -/
inductive Call where
  | AttachConsole (process : ConsoleProcess)
  | IsDebuggerPresent
  | CreateAndAttachConsole
  | CoInitializeEx (pvReserved : Option Nat) (dwCoInit : COINIT)
  | DartProject (path : String)
  | set_ui_thread_policy (policy : UIThreadPolicy)
  | GetCommandLineArguments
  | set_dart_entrypoint_arguments (arguments : List String)
  | FlutterWindow (project : Runner.DartProject)
  | Create (title : String) (origin : Point) (size : Size)
  | SetQuitOnClose (quit_on_close : Bool)
  | GetMessage (hWnd : Option HWND) (wMsgFilterMin wMsgFilterMax : Nat)
  | TranslateMessage (msg : MSG)
  | DispatchMessage (msg : MSG)
  | CoUninitialize
  deriving DecidableEq, Repr

/-- The function a call goes to, without its arguments. -/
inductive Api where
  | AttachConsole
  | IsDebuggerPresent
  | CreateAndAttachConsole
  | CoInitializeEx
  | DartProject
  | set_ui_thread_policy
  | GetCommandLineArguments
  | set_dart_entrypoint_arguments
  | FlutterWindow
  | Create
  | SetQuitOnClose
  | GetMessage
  | TranslateMessage
  | DispatchMessage
  | CoUninitialize
  deriving DecidableEq, Repr

/-- The function called by a `Call`. -/
def Call.api : Call → Api
  | Call.AttachConsole _ => Api.AttachConsole
  | Call.IsDebuggerPresent => Api.IsDebuggerPresent
  | Call.CreateAndAttachConsole => Api.CreateAndAttachConsole
  | Call.CoInitializeEx _ _ => Api.CoInitializeEx
  | Call.DartProject _ => Api.DartProject
  | Call.set_ui_thread_policy _ => Api.set_ui_thread_policy
  | Call.GetCommandLineArguments => Api.GetCommandLineArguments
  | Call.set_dart_entrypoint_arguments _ => Api.set_dart_entrypoint_arguments
  | Call.FlutterWindow _ => Api.FlutterWindow
  | Call.Create _ _ _ => Api.Create
  | Call.SetQuitOnClose _ => Api.SetQuitOnClose
  | Call.GetMessage _ _ _ => Api.GetMessage
  | Call.TranslateMessage _ => Api.TranslateMessage
  | Call.DispatchMessage _ => Api.DispatchMessage
  | Call.CoUninitialize => Api.CoUninitialize

/-- The calls of a trace that go to the function `api`, in order. -/
def callsTo (api : Api) (calls : List Call) : List Call :=
  calls.filter (fun c => decide (c.api = api))

/-- In `calls`, an occurrence of `a` comes before an occurrence of `b`. -/
def Precedes (a b : Call) (calls : List Call) : Prop :=
  ∃ l₁ l₂ l₃, calls = l₁ ++ a :: l₂ ++ b :: l₃

/-- What the outside world answers to the calls of `wWinMain`.
`BOOL` and `HRESULT` results are integers, tested against zero as C does;
`window.Create` returns a C++ `bool`.  `GetMessage n` is the answer to the
call number `n` (from 0) of `GetMessage`: its result and the content of the
message buffer after it. -/
structure Env where
  AttachConsole : Int
  IsDebuggerPresent : Int
  CoInitializeEx : Int
  GetCommandLineArguments : List String
  Create : Bool
  GetMessage : Nat → Int × MSG

/-- Modelled from the spec: the status with which "the process exits
successfully"; `EXIT_SUCCESS` is a macro of `<cstdlib>`, 0 on Windows. -/
def EXIT_SUCCESS : Int := 0

/-- Modelled from the spec: the "failure status"; `EXIT_FAILURE` is a macro of
`<cstdlib>`, 1 on Windows. -/
def EXIT_FAILURE : Int := 1

/-- The observable part of a run: the calls made so far and the exit status,
`none` while the message loop is still running. -/
structure Run where
  calls : List Call
  exit : Option Int
  deriving DecidableEq, Repr

/-! ## The program -/

/-- The message loop
`while (::GetMessage(&msg, nullptr, 0, 0)) { ::TranslateMessage(&msg); ::DispatchMessage(&msg); }`
from the call number `n` of `GetMessage` on, observed for at most `fuel`
calls of `GetMessage`.  Returns the calls made and whether the loop ended. -/
def messageLoop (env : Env) : (fuel : Nat) → (n : Nat) → List Call × Bool
  | 0, _ => ([], false)
  | fuel + 1, n =>
    let r := env.GetMessage n
    if r.1 ≠ 0 then
      let rest := messageLoop env fuel (n + 1)
      (Call.GetMessage none 0 0 :: Call.TranslateMessage r.2 :: Call.DispatchMessage r.2 ::
        rest.1, rest.2)
    else
      ([Call.GetMessage none 0 0], true)

/-- The console step at the head of `wWinMain`.  `debug` says whether the
build defines `_DEBUG`; `&&` evaluates its right operand only when the left
one is true. -/
def attachConsole (debug : Bool) (env : Env) : List Call :=
  if debug then
    if env.AttachConsole = 0 then
      [Call.AttachConsole ConsoleProcess.ATTACH_PARENT_PROCESS, Call.CreateAndAttachConsole]
    else
      [Call.AttachConsole ConsoleProcess.ATTACH_PARENT_PROCESS]
  else
    if env.AttachConsole = 0 then
      if env.IsDebuggerPresent ≠ 0 then
        [Call.AttachConsole ConsoleProcess.ATTACH_PARENT_PROCESS, Call.IsDebuggerPresent,
          Call.CreateAndAttachConsole]
      else
        [Call.AttachConsole ConsoleProcess.ATTACH_PARENT_PROCESS, Call.IsDebuggerPresent]
    else
      [Call.AttachConsole ConsoleProcess.ATTACH_PARENT_PROCESS]

/-- The entry point `wWinMain(instance, prev, command_line, show_command)`,
in a build with or without `_DEBUG`, against the environment `env`, observed
for at most `fuel` calls of `GetMessage`. -/
def wWinMain (debug : Bool) (env : Env) (fuel : Nat)
    (inst prev : HINSTANCE) (command_line : String) (show_command : Int) : Run :=
  -- Attach console for debug output
  let console := attachConsole debug env
  -- Initialize COM
  let com := [Call.CoInitializeEx none COINIT.COINIT_APARTMENTTHREADED]
  -- Initialize Flutter project
  let project := DartProject.new "data"
  let project := project.set_ui_thread_policy UIThreadPolicy.RunOnSeparateThread
  let dart_args := ["--concurrent_gc", "--use_compactor"]
  -- Merge user command line arguments
  let command_line_arguments := env.GetCommandLineArguments
  let dart_args := dart_args ++ command_line_arguments
  let project := project.set_dart_entrypoint_arguments dart_args
  -- Create Flutter window
  let origin : Point := ⟨10, 10⟩
  let size : Size := ⟨900, 660⟩
  let calls := console ++ com ++
    [Call.DartProject "data",
     Call.set_ui_thread_policy UIThreadPolicy.RunOnSeparateThread,
     Call.GetCommandLineArguments,
     Call.set_dart_entrypoint_arguments dart_args,
     Call.FlutterWindow project,
     Call.Create "stelliberty" origin size]
  if !env.Create then
    { calls := calls, exit := some EXIT_FAILURE }
  else
    let calls := calls ++ [Call.SetQuitOnClose true]
    -- Run message loop
    let loop := messageLoop env fuel 0
    if loop.2 then
      { calls := calls ++ loop.1 ++ [ Call.CoUninitialize], exit := some EXIT_SUCCESS }
    else
      { calls := calls ++ loop.1, exit := none }

/-! ## Sample environments -/

/-- A message with the given code, all other fields zero. -/
def sampleMsg (code : Nat) : MSG :=
  { hwnd := 0, message := code, wParam := 0, lParam := 0, time := 0, pt := (0, 0) }

/-- Window creation succeeds; two messages arrive, then the quit message. -/
def envQuitAfterTwo : Env :=
  { AttachConsole := 1, IsDebuggerPresent := 0, CoInitializeEx := 0,
    GetCommandLineArguments := ["--verbose", "--use_compactor"], Create := true,
    GetMessage := fun n => (if n < 2 then 1 else 0, sampleMsg (n + 100)) }

/-- Window creation fails. -/
def envCreateFails : Env :=
  { AttachConsole := 0, IsDebuggerPresent := 1, CoInitializeEx := 0,
    GetCommandLineArguments := ["a"], Create := false,
    GetMessage := fun n => (1, sampleMsg n) }

/-- Window creation succeeds and every `GetMessage` call reports the error -1. -/
def envGetMessageErrors : Env :=
  { AttachConsole := 0, IsDebuggerPresent := 0, CoInitializeEx := 0,
    GetCommandLineArguments := [], Create := true,
    GetMessage := fun n => (-1, sampleMsg 0) }

/-! ## Calls and their functions -/

/-- The function of a `AttachConsole` call. -/
@[simp] theorem api_AttachConsole (p : ConsoleProcess) : Call.api (Call.AttachConsole p) = Api.AttachConsole := rfl

/-- The function of a `IsDebuggerPresent` call. -/
@[simp] theorem api_IsDebuggerPresent : Call.api ( Call.IsDebuggerPresent) = Api.IsDebuggerPresent := rfl

/-- The function of a `CreateAndAttachConsole` call. -/
@[simp] theorem api_CreateAndAttachConsole : Call.api ( Call.CreateAndAttachConsole) = Api.CreateAndAttachConsole := rfl

/-- The function of a `CoInitializeEx` call. -/
@[simp] theorem api_CoInitializeEx (r : Option Nat) (c : COINIT) : Call.api (Call.CoInitializeEx r c) = Api.CoInitializeEx := rfl

/-- The function of a `DartProject` call. -/
@[simp] theorem api_DartProject (p : String) : Call.api (Call.DartProject p) = Api.DartProject := rfl

/-- The function of a `set_ui_thread_policy` call. -/
@[simp] theorem api_set_ui_thread_policy (p : UIThreadPolicy) : Call.api (Call.set_ui_thread_policy p) = Api.set_ui_thread_policy := rfl

/-- The function of a `GetCommandLineArguments` call. -/
@[simp] theorem api_GetCommandLineArguments : Call.api ( Call.GetCommandLineArguments) = Api.GetCommandLineArguments := rfl

/-- The function of a `set_dart_entrypoint_arguments` call. -/
@[simp] theorem api_set_dart_entrypoint_arguments (a : List String) : Call.api (Call.set_dart_entrypoint_arguments a) = Api.set_dart_entrypoint_arguments := rfl

/-- The function of a `FlutterWindow` call. -/
@[simp] theorem api_FlutterWindow (p : Runner.DartProject) : Call.api (Call.FlutterWindow p) = Api.FlutterWindow := rfl

/-- The function of a `Create` call. -/
@[simp] theorem api_Create (t : String) (o : Point) (s : Size) : Call.api (Call.Create t o s) = Api.Create := rfl

/-- The function of a `SetQuitOnClose` call. -/
@[simp] theorem api_SetQuitOnClose (b : Bool) : Call.api (Call.SetQuitOnClose b) = Api.SetQuitOnClose := rfl

/-- The function of a `GetMessage` call. -/
@[simp] theorem api_GetMessage (h : Option HWND) (a b : Nat) : Call.api (Call.GetMessage h a b) = Api.GetMessage := rfl

/-- The function of a `TranslateMessage` call. -/
@[simp] theorem api_TranslateMessage (m : MSG) : Call.api (Call.TranslateMessage m) = Api.TranslateMessage := rfl

/-- The function of a `DispatchMessage` call. -/
@[simp] theorem api_DispatchMessage (m : MSG) : Call.api (Call.DispatchMessage m) = Api.DispatchMessage := rfl

/-- The function of a `CoUninitialize` call. -/
@[simp] theorem api_CoUninitialize : Call.api ( Call.CoUninitialize) = Api.CoUninitialize := rfl

/-- No call of the empty trace goes to `api`. -/
@[simp] theorem callsTo_nil (api : Api) : callsTo api [] = [] := rfl

/-- The calls to `api` in a trace with one more call in front. -/
theorem callsTo_cons (api : Api) (c : Call) (calls : List Call) :
    callsTo api (c :: calls) = if c.api = api then c :: callsTo api calls else callsTo api calls := by
  by_cases h : c.api = api <;> simp [callsTo, List.filter_cons, h]

/-! ## The message loop -/

/-- Unfolding of the loop at a non-zero `GetMessage` result. -/
theorem messageLoop_succ_of_ne (env : Env) (fuel n : Nat) (h : (env.GetMessage n).1 ≠ 0) :
    messageLoop env (fuel + 1) n =
      (Call.GetMessage none 0 0 :: Call.TranslateMessage (env.GetMessage n).2 ::
        Call.DispatchMessage (env.GetMessage n).2 :: (messageLoop env fuel (n + 1)).1,
        (messageLoop env fuel (n + 1)).2) := by
  simp [messageLoop, h]

/-- Unfolding of the loop at a zero `GetMessage` result. -/
theorem messageLoop_succ_of_eq (env : Env) (fuel n : Nat) (h : (env.GetMessage n).1 = 0) :
    messageLoop env (fuel + 1) n = ([Call.GetMessage none 0 0], true) := by
  simp [messageLoop, h]

/-- The loop calls nothing but `GetMessage`, `TranslateMessage` and `DispatchMessage`. -/
theorem messageLoop_api (env : Env) (fuel n : Nat) :
    ∀ c ∈ (messageLoop env fuel n).1,
      c.api = Api.GetMessage ∨ c.api = Api.TranslateMessage ∨ c.api = Api.DispatchMessage := by
  induction fuel generalizing n with
  | zero => simp [messageLoop]
  | succ fuel ih =>
    intro c hc
    by_cases h : (env.GetMessage n).1 = 0
    · rw [messageLoop_succ_of_eq env fuel n h] at hc
      simp at hc
      subst hc
      simp [Call.api]
    · rw [messageLoop_succ_of_ne env fuel n h] at hc
      simp only [List.mem_cons] at hc
      rcases hc with hc | hc | hc | hc
      · subst hc; simp [Call.api]
      · subst hc; simp [Call.api]
      · subst hc; simp [Call.api]
      · exact ih (n + 1) c hc

/-- A function that is not one of the three loop functions is not called in the loop. -/
theorem callsTo_messageLoop (env : Env) (fuel n : Nat) (api : Api)
    (h₁ : api ≠ Api.GetMessage) (h₂ : api ≠ Api.TranslateMessage)
    (h₃ : api ≠ Api.DispatchMessage) :
    callsTo api (messageLoop env fuel n).1 = [] := by
  unfold callsTo
  rw [List.filter_eq_nil_iff]
  intro c hc
  rcases messageLoop_api env fuel n c hc with h | h | h <;> simp [h, Ne.symm h₁, Ne.symm h₂, Ne.symm h₃]

/-- The loop has ended within `fuel` calls exactly when one of them returned zero. -/
theorem messageLoop_done_iff (env : Env) (fuel n : Nat) :
    (messageLoop env fuel n).2 = true ↔ ∃ k, k < fuel ∧ (env.GetMessage (n + k)).1 = 0 := by
  induction fuel generalizing n with
  | zero => simp [messageLoop]
  | succ fuel ih =>
    by_cases h : (env.GetMessage n).1 = 0
    · rw [messageLoop_succ_of_eq env fuel n h]
      simp only [true_iff]
      exact ⟨0, Nat.succ_pos fuel, by simpa using h⟩
    · rw [messageLoop_succ_of_ne env fuel n h]
      simp only
      rw [ih (n + 1)]
      constructor
      · rintro ⟨k, hk, hz⟩
        exact ⟨k + 1, Nat.succ_lt_succ hk, by rw [← hz]; congr 2; omega⟩
      · rintro ⟨k, hk, hz⟩
        cases k with
        | zero => exact absurd (by simpa using hz) h
        | succ k => exact ⟨k, Nat.lt_of_succ_lt_succ hk, by rw [← hz]; congr 2; omega⟩

/-- The loop up to the first zero result: `k` rounds of `GetMessage`,
`TranslateMessage`, `DispatchMessage`, then the `GetMessage` that returns zero. -/
theorem messageLoop_first_zero (env : Env) (k : Nat) :
    ∀ (fuel n : Nat), k < fuel → (∀ i, i < k → (env.GetMessage (n + i)).1 ≠ 0) →
      (env.GetMessage (n + k)).1 = 0 →
      messageLoop env fuel n =
        ((List.range k).flatMap (fun i =>
            [Call.GetMessage none 0 0, Call.TranslateMessage (env.GetMessage (n + i)).2,
              Call.DispatchMessage (env.GetMessage (n + i)).2]) ++ [Call.GetMessage none 0 0],
          true) := by
  induction k with
  | zero =>
    intro fuel n hf _ hz
    obtain ⟨f, rfl⟩ : ∃ f, fuel = f + 1 := ⟨fuel - 1, by omega⟩
    rw [messageLoop_succ_of_eq env f n (by simpa using hz)]
    simp
  | succ k ih =>
    intro fuel n hf hne hz
    obtain ⟨f, rfl⟩ : ∃ f, fuel = f + 1 := ⟨fuel - 1, by omega⟩
    have h0 : (env.GetMessage n).1 ≠ 0 := by simpa using hne 0 (Nat.succ_pos k)
    rw [messageLoop_succ_of_ne env f n h0]
    have hrec := ih f (n + 1) (by omega)
      (fun i hi => by have := hne (i + 1) (by omega); rwa [show n + (i + 1) = n + 1 + i by omega] at this)
      (by rwa [show n + (k + 1) = n + 1 + k by omega] at hz)
    rw [hrec, List.range_succ_eq_map, List.flatMap_cons, List.flatMap_map]
    simp [Nat.add_assoc, Nat.add_comm 1]

/-- While no `GetMessage` call has returned zero, the loop is still running. -/
theorem messageLoop_running (env : Env) (fuel n : Nat)
    (h : ∀ k, k < fuel → (env.GetMessage (n + k)).1 ≠ 0) :
    (messageLoop env fuel n).2 = false := by
  cases hb : (messageLoop env fuel n).2 with
  | false => rfl
  | true =>
    obtain ⟨k, hk, hz⟩ := (messageLoop_done_iff env fuel n).1 hb
    exact absurd hz (h k hk)

/-- The loop depends on the environment through `GetMessage` only. -/
theorem messageLoop_congr (e₁ e₂ : Env) (fuel n : Nat) (h : e₁.GetMessage = e₂.GetMessage) :
    messageLoop e₁ fuel n = messageLoop e₂ fuel n := by
  induction fuel generalizing n with
  | zero => simp [messageLoop]
  | succ fuel ih => simp [messageLoop, h, ih (n + 1)]

/-- The console step calls nothing but `AttachConsole`, `IsDebuggerPresent`
and `CreateAndAttachConsole`. -/
theorem attachConsole_api (debug : Bool) (env : Env) :
    ∀ c ∈ attachConsole debug env,
      c.api = Api.AttachConsole ∨ c.api = Api.IsDebuggerPresent ∨
        c.api = Api.CreateAndAttachConsole := by
  intro c hc
  unfold attachConsole at hc
  split_ifs at hc <;> simp at hc <;> rcases hc with rfl | rfl | rfl <;> simp [Call.api]

/-! ## The shape of a run -/

/-- Filtering the calls to one function distributes over concatenation. -/
theorem callsTo_append (api : Api) (l₁ l₂ : List Call) :
    callsTo api (l₁ ++ l₂) = callsTo api l₁ ++ callsTo api l₂ := by
  simp [callsTo]

/-- A function that is not one of the three console functions is not called
in the console step. -/
theorem callsTo_attachConsole (debug : Bool) (env : Env) (api : Api)
    (h₁ : api ≠ Api.AttachConsole) (h₂ : api ≠ Api.IsDebuggerPresent)
    (h₃ : api ≠ Api.CreateAndAttachConsole) :
    callsTo api (attachConsole debug env) = [] := by
  unfold callsTo
  rw [List.filter_eq_nil_iff]
  intro c hc
  rcases attachConsole_api debug env c hc with h | h | h <;> simp [h, Ne.symm h₁, Ne.symm h₂, Ne.symm h₃]

/-- The calls of a run: the console step, the seven start-up calls that end
with `window.Create`, and, when the window was created, `SetQuitOnClose`, the
message loop and, once the loop has ended, `CoUninitialize`. -/
theorem wWinMain_calls (debug : Bool) (env : Env) (fuel : Nat)
    (inst prev : HINSTANCE) (command_line : String) (show_command : Int) :
    (wWinMain debug env fuel inst prev command_line show_command).calls =
      attachConsole debug env ++
      [Call.CoInitializeEx none COINIT.COINIT_APARTMENTTHREADED,
       Call.DartProject "data",
       Call.set_ui_thread_policy UIThreadPolicy.RunOnSeparateThread,
       Call.GetCommandLineArguments,
       Call.set_dart_entrypoint_arguments
         (["--concurrent_gc", "--use_compactor"] ++ env.GetCommandLineArguments),
       Call.FlutterWindow
         { path := "data", ui_thread_policy := UIThreadPolicy.RunOnSeparateThread,
           dart_entrypoint_arguments :=
             ["--concurrent_gc", "--use_compactor"] ++ env.GetCommandLineArguments },
       Call.Create "stelliberty" ⟨10, 10⟩ ⟨900, 660⟩] ++
      (if env.Create then
        Call.SetQuitOnClose true :: (messageLoop env fuel 0).1 ++
          (if (messageLoop env fuel 0).2 then [ Call.CoUninitialize] else [])
       else []) := by
  cases hc : env.Create <;> cases hl : (messageLoop env fuel 0).2 <;>
    simp [wWinMain, hc, hl, DartProject.new, DartProject.set_ui_thread_policy,
      DartProject.set_dart_entrypoint_arguments]

/-- The exit status of a run. -/
theorem wWinMain_exit (debug : Bool) (env : Env) (fuel : Nat)
    (inst prev : HINSTANCE) (command_line : String) (show_command : Int) :
    (wWinMain debug env fuel inst prev command_line show_command).exit =
      if env.Create then (if (messageLoop env fuel 0).2 then some EXIT_SUCCESS else none)
      else some EXIT_FAILURE := by
  cases hc : env.Create <;> cases hl : (messageLoop env fuel 0).2 <;> simp [wWinMain, hc, hl]

/-- The calls a run makes to a function that is neither a console function
nor a loop function, read off the start-up calls and the tail. -/
theorem callsTo_wWinMain (debug : Bool) (env : Env) (fuel : Nat)
    (inst prev : HINSTANCE) (command_line : String) (show_command : Int) (api : Api)
    (h₁ : api ≠ Api.AttachConsole) (h₂ : api ≠ Api.IsDebuggerPresent)
    (h₃ : api ≠ Api.CreateAndAttachConsole)
    (h₄ : api ≠ Api.GetMessage) (h₅ : api ≠ Api.TranslateMessage)
    (h₆ : api ≠ Api.DispatchMessage) :
    callsTo api (wWinMain debug env fuel inst prev command_line show_command).calls =
      callsTo api
        ([Call.CoInitializeEx none COINIT.COINIT_APARTMENTTHREADED,
          Call.DartProject "data",
          Call.set_ui_thread_policy UIThreadPolicy.RunOnSeparateThread,
          Call.GetCommandLineArguments,
          Call.set_dart_entrypoint_arguments
            (["--concurrent_gc", "--use_compactor"] ++ env.GetCommandLineArguments),
          Call.FlutterWindow
            { path := "data", ui_thread_policy := UIThreadPolicy.RunOnSeparateThread,
              dart_entrypoint_arguments :=
                ["--concurrent_gc", "--use_compactor"] ++ env.GetCommandLineArguments },
          Call.Create "stelliberty" ⟨10, 10⟩ ⟨900, 660⟩] ++
         (if env.Create then
           Call.SetQuitOnClose true ::
             (if (messageLoop env fuel 0).2 then [ Call.CoUninitialize] else [])
          else [])) := by
  rw [wWinMain_calls, callsTo_append, callsTo_append,
    callsTo_attachConsole debug env api h₁ h₂ h₃, callsTo_append]
  cases hc : env.Create
  · simp
  · have hloop := callsTo_messageLoop env fuel 0 api h₄ h₅ h₆
    simp only [if_true, List.nil_append]
    rw [show Call.SetQuitOnClose true :: (messageLoop env fuel 0).1 ++
          (if (messageLoop env fuel 0).2 = true then [ Call.CoUninitialize] else []) =
        [Call.SetQuitOnClose true] ++ ((messageLoop env fuel 0).1 ++
          (if (messageLoop env fuel 0).2 = true then [ Call.CoUninitialize] else [])) by simp,
      callsTo_append, callsTo_append, hloop]
    rw [show Call.SetQuitOnClose true ::
          (if (messageLoop env fuel 0).2 = true then [ Call.CoUninitialize] else []) =
        [Call.SetQuitOnClose true] ++
          (if (messageLoop env fuel 0).2 = true then [ Call.CoUninitialize] else []) by simp,
      callsTo_append]
    simp

/-- The calls a run makes to a console function are those of the console step. -/
theorem callsTo_wWinMain_console (debug : Bool) (env : Env) (fuel : Nat)
    (inst prev : HINSTANCE) (command_line : String) (show_command : Int) (api : Api)
    (h : api = Api.AttachConsole ∨ api = Api.IsDebuggerPresent ∨
      api = Api.CreateAndAttachConsole) :
    callsTo api (wWinMain debug env fuel inst prev command_line show_command).calls =
      callsTo api (attachConsole debug env) := by
  have hloop : callsTo api (messageLoop env fuel 0).1 = [] := by
    apply callsTo_messageLoop <;> rcases h with h | h | h <;> simp [h]
  rw [wWinMain_calls, callsTo_append, callsTo_append]
  cases hc : env.Create
  · rcases h with h | h | h <;> simp [h, callsTo, Call.api]
  · simp only [if_true]
    rw [show Call.SetQuitOnClose true :: (messageLoop env fuel 0).1 ++
          (if (messageLoop env fuel 0).2 = true then [ Call.CoUninitialize] else []) =
        [Call.SetQuitOnClose true] ++ ((messageLoop env fuel 0).1 ++
          (if (messageLoop env fuel 0).2 = true then [ Call.CoUninitialize] else [])) by simp,
      callsTo_append, callsTo_append, hloop]
    cases (messageLoop env fuel 0).2 <;> rcases h with h | h | h <;> simp [h, callsTo, Call.api]

/-- A call is in a trace exactly when it is among the calls to its function. -/
theorem mem_callsTo_api (c : Call) (api : Api) (calls : List Call) (h : c.api = api) :
    c ∈ callsTo api calls ↔ c ∈ calls := by
  simp [callsTo, h]

/-- The calls to one function in a sequence of loop rounds. -/
theorem callsTo_rounds (env : Env) (api : Api) (rounds : List Nat) :
    callsTo api (rounds.flatMap (fun i =>
      [Call.GetMessage none 0 0, Call.TranslateMessage (env.GetMessage i).2,
        Call.DispatchMessage (env.GetMessage i).2])) =
    rounds.flatMap (fun i => callsTo api
      [Call.GetMessage none 0 0, Call.TranslateMessage (env.GetMessage i).2,
        Call.DispatchMessage (env.GetMessage i).2]) := by
  induction rounds with
  | nil => simp [callsTo]
  | cons i rounds ih => rw [List.flatMap_cons, List.flatMap_cons, callsTo_append, ih]

/-- While the results are non-zero, each unit of fuel is one `GetMessage` call. -/
theorem callsTo_GetMessage_messageLoop_running (env : Env) (fuel n : Nat)
    (h : ∀ k, k < fuel → (env.GetMessage (n + k)).1 ≠ 0) :
    (callsTo Api.GetMessage (messageLoop env fuel n).1).length = fuel := by
  induction fuel generalizing n with
  | zero => simp [messageLoop, callsTo]
  | succ fuel ih =>
    have h0 : (env.GetMessage n).1 ≠ 0 := by simpa using h 0 (Nat.succ_pos fuel)
    rw [messageLoop_succ_of_ne env fuel n h0]
    have hrec := ih (n + 1) (fun k hk => by
      have := h (k + 1) (by omega)
      rwa [show n + (k + 1) = n + 1 + k by omega] at this)
    simp [callsTo_cons, hrec]

/-! ## Exit status -/

/-- Claim C1: the exit status is decided by `window.Create` alone.  When
`Create` returns false every run returns `EXIT_FAILURE`; when it returns true
and some `GetMessage` call returns zero, the run returns `EXIT_SUCCESS`; a
run that has returned has status `EXIT_FAILURE` exactly when `Create`
returned false; and neither the build flavour nor the results of
`AttachConsole`, `IsDebuggerPresent` and `CoInitializeEx` change the exit
status. -/
theorem wWinMain_exit_status (debug : Bool) (env : Env)
    (inst prev : HINSTANCE) (command_line : String) (show_command : Int) :
    (env.Create = false → ∀ fuel,
      (wWinMain debug env fuel inst prev command_line show_command).exit = some EXIT_FAILURE) ∧
    (env.Create = true → ∀ k, (env.GetMessage k).1 = 0 → ∀ fuel, k < fuel →
      (wWinMain debug env fuel inst prev command_line show_command).exit = some EXIT_SUCCESS) ∧
    (∀ fuel status,
      (wWinMain debug env fuel inst prev command_line show_command).exit = some status →
        (status = EXIT_FAILURE ↔ env.Create = false)) ∧
    (∀ fuel (debug' : Bool) (attach debugger hresult : Int),
      (wWinMain debug'
          { env with AttachConsole := attach, IsDebuggerPresent := debugger,
                     CoInitializeEx := hresult }
          fuel inst prev command_line show_command).exit =
        (wWinMain debug env fuel inst prev command_line show_command).exit) := by
  refine ⟨?_, ?_, ?_, ?_⟩
  · intro hc fuel
    simp [wWinMain_exit, hc]
  · intro hc k hz fuel hk
    have hdone : (messageLoop env fuel 0).2 = true :=
      (messageLoop_done_iff env fuel 0).2 ⟨k, hk, by simpa using hz⟩
    simp [wWinMain_exit, hc, hdone]
  · intro fuel status h
    rw [wWinMain_exit] at h
    cases hc : env.Create
    · simp [hc] at h
      simp [← h]
    · cases hl : (messageLoop env fuel 0).2
      · simp [hc, hl] at h
      · simp [hc, hl] at h
        simp [← h, EXIT_SUCCESS, EXIT_FAILURE]
  · intro fuel debug' attach debugger hresult
    rw [wWinMain_exit, wWinMain_exit]
    have hloop := messageLoop_congr
      { env with AttachConsole := attach, IsDebuggerPresent := debugger,
                 CoInitializeEx := hresult } env fuel 0 rfl
    simp only [hloop]

/-- Claim C1, at a run whose window is created and whose third `GetMessage`
call returns zero. -/
theorem wWinMain_exit_status_witness :
    (wWinMain false envQuitAfterTwo 3 0 0 "" 1).exit = some EXIT_SUCCESS ∧
      ((0 : Int) = EXIT_FAILURE ↔ envQuitAfterTwo.Create = false) :=
  ⟨(wWinMain_exit_status false envQuitAfterTwo 0 0 "" 1).2.1 rfl 2 rfl 3 (by decide),
   (wWinMain_exit_status false envQuitAfterTwo 0 0 "" 1).2.2.1 3 0 rfl⟩

/-! ## Entrypoint arguments -/

/-- Claim C2: `set_dart_entrypoint_arguments` is called once, with the two
fixed flags followed by the result of `GetCommandLineArguments()` unchanged:
the list has two more elements than the command line, starts with the two
flags in order, and the rest is the command line itself. -/
theorem entrypoint_arguments_are_flags_then_cli (debug : Bool) (env : Env) (fuel : Nat)
    (inst prev : HINSTANCE) (command_line : String) (show_command : Int) :
    ∃ arguments,
      callsTo Api.set_dart_entrypoint_arguments
          (wWinMain debug env fuel inst prev command_line show_command).calls =
        [Call.set_dart_entrypoint_arguments arguments] ∧
      callsTo Api.GetCommandLineArguments
          (wWinMain debug env fuel inst prev command_line show_command).calls =
        [Call.GetCommandLineArguments] ∧
      arguments = ["--concurrent_gc", "--use_compactor"] ++ env.GetCommandLineArguments ∧
      arguments.length = env.GetCommandLineArguments.length + 2 ∧
      arguments.take 2 = ["--concurrent_gc", "--use_compactor"] ∧
      arguments.drop 2 = env.GetCommandLineArguments := by
  refine ⟨["--concurrent_gc", "--use_compactor"] ++ env.GetCommandLineArguments,
    ?_, ?_, rfl, by simp, by simp, by simp⟩
  · rw [callsTo_wWinMain debug env fuel inst prev command_line show_command _
      (by decide) (by decide) (by decide) (by decide) (by decide) (by decide)]
    cases env.Create <;> cases (messageLoop env fuel 0).2 <;> simp [callsTo, Call.api]
  · rw [callsTo_wWinMain debug env fuel inst prev command_line show_command _
      (by decide) (by decide) (by decide) (by decide) (by decide) (by decide)]
    cases env.Create <;> cases (messageLoop env fuel 0).2 <;> simp [callsTo, Call.api]

/-! ## Window creation -/

/-- Claim C3: when `window.Create` returns false, the failed `Create` is the
last call of the run and the only call to `Create`; `SetQuitOnClose`,
`GetMessage`, `TranslateMessage` and `DispatchMessage` are not called, and the
run returns `EXIT_FAILURE` whatever the observation bound. -/
theorem create_failure_exits_immediately (debug : Bool) (env : Env) (fuel : Nat)
    (inst prev : HINSTANCE) (command_line : String) (show_command : Int)
    (h : env.Create = false) :
    (∃ before,
      (wWinMain debug env fuel inst prev command_line show_command).calls =
        before ++ [Call.Create "stelliberty" ⟨10, 10⟩ ⟨900, 660⟩] ∧
      callsTo Api.Create before = []) ∧
    callsTo Api.SetQuitOnClose
      (wWinMain debug env fuel inst prev command_line show_command).calls = [] ∧
    callsTo Api.GetMessage
      (wWinMain debug env fuel inst prev command_line show_command).calls = [] ∧
    callsTo Api.TranslateMessage
      (wWinMain debug env fuel inst prev command_line show_command).calls = [] ∧
    callsTo Api.DispatchMessage
      (wWinMain debug env fuel inst prev command_line show_command).calls = [] ∧
    (wWinMain debug env fuel inst prev command_line show_command).exit = some EXIT_FAILURE := by
  have hcalls := wWinMain_calls debug env fuel inst prev command_line show_command
  simp only [h, Bool.false_eq_true, if_false, List.append_nil] at hcalls
  refine ⟨⟨attachConsole debug env ++
      [Call.CoInitializeEx none COINIT.COINIT_APARTMENTTHREADED,
       Call.DartProject "data",
       Call.set_ui_thread_policy UIThreadPolicy.RunOnSeparateThread,
       Call.GetCommandLineArguments,
       Call.set_dart_entrypoint_arguments
         (["--concurrent_gc", "--use_compactor"] ++ env.GetCommandLineArguments),
       Call.FlutterWindow
         { path := "data", ui_thread_policy := UIThreadPolicy.RunOnSeparateThread,
           dart_entrypoint_arguments :=
             ["--concurrent_gc", "--use_compactor"] ++ env.GetCommandLineArguments }],
      ?_, ?_⟩, ?_, ?_, ?_, ?_, ?_⟩
  · rw [hcalls]; simp
  · rw [callsTo_append, callsTo_attachConsole debug env _ (by decide) (by decide) (by decide)]
    simp [callsTo, Call.api]
  · rw [callsTo_wWinMain debug env fuel inst prev command_line show_command _
      (by decide) (by decide) (by decide) (by decide) (by decide) (by decide)]
    simp [h, callsTo, Call.api]
  · rw [hcalls, callsTo_append,
      callsTo_attachConsole debug env _ (by decide) (by decide) (by decide)]
    simp [callsTo, Call.api]
  · rw [hcalls, callsTo_append,
      callsTo_attachConsole debug env _ (by decide) (by decide) (by decide)]
    simp [callsTo, Call.api]
  · rw [hcalls, callsTo_append,
      callsTo_attachConsole debug env _ (by decide) (by decide) (by decide)]
    simp [callsTo, Call.api]
  · simp [wWinMain_exit, h]

/-- Claim C3, at an environment where window creation fails. -/
theorem create_failure_exits_immediately_witness :
    envCreateFails.Create = false ∧
      callsTo Api.GetMessage (wWinMain true envCreateFails 5 0 0 "" 1).calls = [] ∧
      (wWinMain true envCreateFails 5 0 0 "" 1).exit = some EXIT_FAILURE :=
  ⟨rfl, (create_failure_exits_immediately true envCreateFails 5 0 0 "" 1 rfl).2.2.1,
    (create_failure_exits_immediately true envCreateFails 5 0 0 "" 1 rfl).2.2.2.2.2⟩

/-- Claim C5: `window.Create` is called exactly once, with the title
`stelliberty`, the origin (10, 10) and the size (900, 660), whatever the
build flavour, the environment and the parameters. -/
theorem create_called_once_with_fixed_geometry (debug : Bool) (env : Env) (fuel : Nat)
    (inst prev : HINSTANCE) (command_line : String) (show_command : Int) :
    callsTo Api.Create (wWinMain debug env fuel inst prev command_line show_command).calls =
      [Call.Create "stelliberty" ⟨10, 10⟩ ⟨900, 660⟩] := by
  rw [callsTo_wWinMain debug env fuel inst prev command_line show_command _
    (by decide) (by decide) (by decide) (by decide) (by decide) (by decide)]
  cases env.Create <;> cases (messageLoop env fuel 0).2 <;> simp [callsTo, Call.api]

/-! ## COM -/

/-- Claim C4, at the failing input: when window creation fails, the run has
called `CoInitializeEx(nullptr, COINIT_APARTMENTTHREADED)` once, returns
`EXIT_FAILURE`, and has not called `CoUninitialize`. -/
theorem com_not_uninitialised_when_create_fails (fuel : Nat) :
    callsTo Api.CoInitializeEx (wWinMain false envCreateFails fuel 0 0 "a" 1).calls =
      [Call.CoInitializeEx none COINIT.COINIT_APARTMENTTHREADED] ∧
    callsTo Api.CoUninitialize (wWinMain false envCreateFails fuel 0 0 "a" 1).calls = [] ∧
    (wWinMain false envCreateFails fuel 0 0 "a" 1).exit = some EXIT_FAILURE := by
  refine ⟨?_, ?_, ?_⟩
  · rw [callsTo_wWinMain false envCreateFails fuel 0 0 "a" 1 _
      (by decide) (by decide) (by decide) (by decide) (by decide) (by decide)]
    simp [callsTo, Call.api, envCreateFails]
  · rw [callsTo_wWinMain false envCreateFails fuel 0 0 "a" 1 _
      (by decide) (by decide) (by decide) (by decide) (by decide) (by decide)]
    simp [callsTo, Call.api, envCreateFails]
  · simp [wWinMain_exit, envCreateFails]

/-- On the success path COM is balanced: a run that returns `EXIT_SUCCESS`
has called `CoInitializeEx` once and `CoUninitialize` once, as its last call. -/
theorem com_balanced_on_success (debug : Bool) (env : Env) (fuel : Nat)
    (inst prev : HINSTANCE) (command_line : String) (show_command : Int)
    (h : (wWinMain debug env fuel inst prev command_line show_command).exit =
      some EXIT_SUCCESS) :
    callsTo Api.CoInitializeEx
        (wWinMain debug env fuel inst prev command_line show_command).calls =
      [Call.CoInitializeEx none COINIT.COINIT_APARTMENTTHREADED] ∧
    callsTo Api.CoUninitialize
        (wWinMain debug env fuel inst prev command_line show_command).calls =
      [ Call.CoUninitialize] ∧
    (wWinMain debug env fuel inst prev command_line show_command).calls.getLast? =
      some Call.CoUninitialize := by
  rw [wWinMain_exit] at h
  cases hc : env.Create
  · simp [hc, EXIT_SUCCESS, EXIT_FAILURE] at h
  · cases hl : (messageLoop env fuel 0).2
    · simp [hc, hl] at h
    · refine ⟨?_, ?_, ?_⟩
      · rw [callsTo_wWinMain debug env fuel inst prev command_line show_command _
          (by decide) (by decide) (by decide) (by decide) (by decide) (by decide)]
        simp [hc, hl, callsTo, Call.api]
      · rw [callsTo_wWinMain debug env fuel inst prev command_line show_command _
          (by decide) (by decide) (by decide) (by decide) (by decide) (by decide)]
        simp [hc, hl, callsTo, Call.api]
      · rw [wWinMain_calls]
        simp [hc, hl, List.getLast?_cons, List.getLast?_append]

/-! ## The message loop, as seen in a run -/

/-- Claim C6: when the window is created and the first zero result of
`GetMessage` is at call `k`, the run ends with `Create`, `SetQuitOnClose`,
then for each of the `k` messages in retrieval order one `GetMessage`, one
`TranslateMessage` and one `DispatchMessage` on that message, then the
`GetMessage` that returns zero and `CoUninitialize`; nothing before `Create`
touches the loop functions, the message fetched with the zero result is not
processed, and the run returns `EXIT_SUCCESS`. -/
theorem message_loop_pumps_until_quit (debug : Bool) (env : Env) (fuel : Nat)
    (inst prev : HINSTANCE) (command_line : String) (show_command : Int) (k : Nat)
    (hcreate : env.Create = true)
    (hzero : (env.GetMessage k).1 = 0)
    (hfirst : ∀ i, i < k → (env.GetMessage i).1 ≠ 0)
    (hfuel : k < fuel) :
    (∃ before,
      (wWinMain debug env fuel inst prev command_line show_command).calls =
        before ++ [Call.Create "stelliberty" ⟨10, 10⟩ ⟨900, 660⟩, Call.SetQuitOnClose true] ++
          (List.range k).flatMap (fun i =>
            [Call.GetMessage none 0 0, Call.TranslateMessage (env.GetMessage i).2,
              Call.DispatchMessage (env.GetMessage i).2]) ++
          [Call.GetMessage none 0 0, Call.CoUninitialize] ∧
      ∀ c ∈ before, c.api ≠ Api.GetMessage ∧ c.api ≠ Api.TranslateMessage ∧
        c.api ≠ Api.DispatchMessage) ∧
    callsTo Api.TranslateMessage
        (wWinMain debug env fuel inst prev command_line show_command).calls =
      (List.range k).map (fun i => Call.TranslateMessage (env.GetMessage i).2) ∧
    callsTo Api.DispatchMessage
        (wWinMain debug env fuel inst prev command_line show_command).calls =
      (List.range k).map (fun i => Call.DispatchMessage (env.GetMessage i).2) ∧
    (callsTo Api.GetMessage
        (wWinMain debug env fuel inst prev command_line show_command).calls).length = k + 1 ∧
    (wWinMain debug env fuel inst prev command_line show_command).exit = some EXIT_SUCCESS := by
  have hloop := messageLoop_first_zero env k fuel 0 hfuel
    (fun i hi => by simpa using hfirst i hi) (by simpa using hzero)
  simp only [Nat.zero_add] at hloop
  have hcalls := wWinMain_calls debug env fuel inst prev command_line show_command
  rw [hloop] at hcalls
  simp only [hcreate, if_true] at hcalls
  have hconsole : ∀ api, api ≠ Api.AttachConsole → api ≠ Api.IsDebuggerPresent →
      api ≠ Api.CreateAndAttachConsole → callsTo api (attachConsole debug env) = [] :=
    fun api h₁ h₂ h₃ => callsTo_attachConsole debug env api h₁ h₂ h₃
  refine ⟨⟨attachConsole debug env ++
      [Call.CoInitializeEx none COINIT.COINIT_APARTMENTTHREADED,
       Call.DartProject "data",
       Call.set_ui_thread_policy UIThreadPolicy.RunOnSeparateThread,
       Call.GetCommandLineArguments,
       Call.set_dart_entrypoint_arguments
         (["--concurrent_gc", "--use_compactor"] ++ env.GetCommandLineArguments),
       Call.FlutterWindow
         { path := "data", ui_thread_policy := UIThreadPolicy.RunOnSeparateThread,
           dart_entrypoint_arguments :=
             ["--concurrent_gc", "--use_compactor"] ++ env.GetCommandLineArguments }],
      ?_, ?_⟩, ?_, ?_, ?_, ?_⟩
  · rw [hcalls]; simp
  · intro c hc
    rw [List.mem_append] at hc
    rcases hc with hc | hc
    · rcases attachConsole_api debug env c hc with h | h | h <;> simp [h]
    · simp at hc
      rcases hc with rfl | rfl | rfl | rfl | rfl | rfl <;> simp [Call.api]
  · rw [hcalls]
    simp only [callsTo_append, callsTo_rounds, List.cons_append,
      hconsole Api.TranslateMessage (by decide) (by decide) (by decide)]
    simp [callsTo_append, callsTo_rounds, callsTo_cons, List.map_eq_flatMap]
  · rw [hcalls]
    simp only [callsTo_append, callsTo_rounds, List.cons_append,
      hconsole Api.DispatchMessage (by decide) (by decide) (by decide)]
    simp [callsTo_append, callsTo_rounds, callsTo_cons, List.map_eq_flatMap]
  · rw [hcalls]
    simp only [callsTo_append, callsTo_rounds, List.cons_append,
      hconsole Api.GetMessage (by decide) (by decide) (by decide)]
    simp [callsTo_append, callsTo_rounds, callsTo_cons, ← List.map_eq_flatMap]
  · have hdone : (messageLoop env fuel 0).2 = true := by rw [hloop]
    simp [wWinMain_exit, hcreate, hdone]

/-- Claim C6, at a run with two messages before the quit message. -/
theorem message_loop_pumps_until_quit_witness :
    callsTo Api.DispatchMessage (wWinMain false envQuitAfterTwo 3 0 0 "" 1).calls =
      (List.range 2).map (fun i => Call.DispatchMessage (envQuitAfterTwo.GetMessage i).2) ∧
    (wWinMain false envQuitAfterTwo 3 0 0 "" 1).exit = some EXIT_SUCCESS :=
  ⟨(message_loop_pumps_until_quit false envQuitAfterTwo 3 0 0 "" 1 2 rfl rfl
      (by decide) (by decide)).2.2.1,
   (message_loop_pumps_until_quit false envQuitAfterTwo 3 0 0 "" 1 2 rfl rfl
      (by decide) (by decide)).2.2.2.2⟩

/-! ## Order of the start-up calls -/

/-- Claim C7: the project is configured before the window is built.
`set_ui_thread_policy(RunOnSeparateThread)` and
`set_dart_entrypoint_arguments` are each called once, the `FlutterWindow` is
constructed once, from a project whose policy is `RunOnSeparateThread` and
whose entrypoint arguments are the merged list, and both setter calls come
before the construction of the window and before `window.Create`. -/
theorem project_configured_before_window (debug : Bool) (env : Env) (fuel : Nat)
    (inst prev : HINSTANCE) (command_line : String) (show_command : Int) :
    callsTo Api.set_ui_thread_policy
        (wWinMain debug env fuel inst prev command_line show_command).calls =
      [Call.set_ui_thread_policy UIThreadPolicy.RunOnSeparateThread] ∧
    callsTo Api.set_dart_entrypoint_arguments
        (wWinMain debug env fuel inst prev command_line show_command).calls =
      [Call.set_dart_entrypoint_arguments
        (["--concurrent_gc", "--use_compactor"] ++ env.GetCommandLineArguments)] ∧
    callsTo Api.DartProject
        (wWinMain debug env fuel inst prev command_line show_command).calls =
      [Call.DartProject "data"] ∧
    callsTo Api.Create
        (wWinMain debug env fuel inst prev command_line show_command).calls =
      [Call.Create "stelliberty" ⟨10, 10⟩ ⟨900, 660⟩] ∧
    ∃ project,
      callsTo Api.FlutterWindow
          (wWinMain debug env fuel inst prev command_line show_command).calls =
        [Call.FlutterWindow project] ∧
      project.ui_thread_policy = UIThreadPolicy.RunOnSeparateThread ∧
      project.dart_entrypoint_arguments =
        ["--concurrent_gc", "--use_compactor"] ++ env.GetCommandLineArguments ∧
      Precedes (Call.set_ui_thread_policy UIThreadPolicy.RunOnSeparateThread)
        (Call.FlutterWindow project)
        (wWinMain debug env fuel inst prev command_line show_command).calls ∧
      Precedes
        (Call.set_dart_entrypoint_arguments
          (["--concurrent_gc", "--use_compactor"] ++ env.GetCommandLineArguments))
        (Call.FlutterWindow project)
        (wWinMain debug env fuel inst prev command_line show_command).calls ∧
      Precedes (Call.set_ui_thread_policy UIThreadPolicy.RunOnSeparateThread)
        (Call.Create "stelliberty" ⟨10, 10⟩ ⟨900, 660⟩)
        (wWinMain debug env fuel inst prev command_line show_command).calls ∧
      Precedes
        (Call.set_dart_entrypoint_arguments
          (["--concurrent_gc", "--use_compactor"] ++ env.GetCommandLineArguments))
        (Call.Create "stelliberty" ⟨10, 10⟩ ⟨900, 660⟩)
        (wWinMain debug env fuel inst prev command_line show_command).calls ∧
      Precedes (Call.FlutterWindow project)
        (Call.Create "stelliberty" ⟨10, 10⟩ ⟨900, 660⟩)
        (wWinMain debug env fuel inst prev command_line show_command).calls := by
  have hto := fun api h₁ h₂ h₃ h₄ h₅ h₆ =>
    callsTo_wWinMain debug env fuel inst prev command_line show_command api h₁ h₂ h₃ h₄ h₅ h₆
  obtain ⟨tail, htail⟩ : ∃ tail,
      (wWinMain debug env fuel inst prev command_line show_command).calls =
        attachConsole debug env ++
        [Call.CoInitializeEx none COINIT.COINIT_APARTMENTTHREADED,
         Call.DartProject "data",
         Call.set_ui_thread_policy UIThreadPolicy.RunOnSeparateThread,
         Call.GetCommandLineArguments,
         Call.set_dart_entrypoint_arguments
           (["--concurrent_gc", "--use_compactor"] ++ env.GetCommandLineArguments),
         Call.FlutterWindow
           { path := "data", ui_thread_policy := UIThreadPolicy.RunOnSeparateThread,
             dart_entrypoint_arguments :=
               ["--concurrent_gc", "--use_compactor"] ++ env.GetCommandLineArguments },
         Call.Create "stelliberty" ⟨10, 10⟩ ⟨900, 660⟩] ++ tail :=
    ⟨_, wWinMain_calls debug env fuel inst prev command_line show_command⟩
  refine ⟨?_, ?_, ?_, ?_,
    { path := "data", ui_thread_policy := UIThreadPolicy.RunOnSeparateThread,
      dart_entrypoint_arguments :=
        ["--concurrent_gc", "--use_compactor"] ++ env.GetCommandLineArguments },
    ?_, rfl, rfl, ?_, ?_, ?_, ?_, ?_⟩
  · rw [hto _ (by decide) (by decide) (by decide) (by decide) (by decide) (by decide)]
    cases env.Create <;> cases (messageLoop env fuel 0).2 <;> simp [callsTo_cons]
  · rw [hto _ (by decide) (by decide) (by decide) (by decide) (by decide) (by decide)]
    cases env.Create <;> cases (messageLoop env fuel 0).2 <;> simp [callsTo_cons]
  · rw [hto _ (by decide) (by decide) (by decide) (by decide) (by decide) (by decide)]
    cases env.Create <;> cases (messageLoop env fuel 0).2 <;> simp [callsTo_cons]
  · rw [hto _ (by decide) (by decide) (by decide) (by decide) (by decide) (by decide)]
    cases env.Create <;> cases (messageLoop env fuel 0).2 <;> simp [callsTo_cons]
  · rw [hto _ (by decide) (by decide) (by decide) (by decide) (by decide) (by decide)]
    cases env.Create <;> cases (messageLoop env fuel 0).2 <;> simp [callsTo_cons]
  · exact ⟨attachConsole debug env ++
        [Call.CoInitializeEx none COINIT.COINIT_APARTMENTTHREADED, Call.DartProject "data"],
      [Call.GetCommandLineArguments,
        Call.set_dart_entrypoint_arguments
          (["--concurrent_gc", "--use_compactor"] ++ env.GetCommandLineArguments)],
      Call.Create "stelliberty" ⟨10, 10⟩ ⟨900, 660⟩ :: tail, by rw [htail]; simp⟩
  · exact ⟨attachConsole debug env ++
        [Call.CoInitializeEx none COINIT.COINIT_APARTMENTTHREADED, Call.DartProject "data",
          Call.set_ui_thread_policy UIThreadPolicy.RunOnSeparateThread,
          Call.GetCommandLineArguments],
      [], Call.Create "stelliberty" ⟨10, 10⟩ ⟨900, 660⟩ :: tail, by rw [htail]; simp⟩
  · exact ⟨attachConsole debug env ++
        [Call.CoInitializeEx none COINIT.COINIT_APARTMENTTHREADED, Call.DartProject "data"],
      [Call.GetCommandLineArguments,
        Call.set_dart_entrypoint_arguments
          (["--concurrent_gc", "--use_compactor"] ++ env.GetCommandLineArguments),
        Call.FlutterWindow
          { path := "data", ui_thread_policy := UIThreadPolicy.RunOnSeparateThread,
            dart_entrypoint_arguments :=
              ["--concurrent_gc", "--use_compactor"] ++ env.GetCommandLineArguments }],
      tail, by rw [htail]; simp⟩
  · exact ⟨attachConsole debug env ++
        [Call.CoInitializeEx none COINIT.COINIT_APARTMENTTHREADED, Call.DartProject "data",
          Call.set_ui_thread_policy UIThreadPolicy.RunOnSeparateThread,
          Call.GetCommandLineArguments],
      [Call.FlutterWindow
          { path := "data", ui_thread_policy := UIThreadPolicy.RunOnSeparateThread,
            dart_entrypoint_arguments :=
              ["--concurrent_gc", "--use_compactor"] ++ env.GetCommandLineArguments }],
      tail, by rw [htail]; simp⟩
  · exact ⟨attachConsole debug env ++
        [Call.CoInitializeEx none COINIT.COINIT_APARTMENTTHREADED, Call.DartProject "data",
          Call.set_ui_thread_policy UIThreadPolicy.RunOnSeparateThread,
          Call.GetCommandLineArguments,
          Call.set_dart_entrypoint_arguments
            (["--concurrent_gc", "--use_compactor"] ++ env.GetCommandLineArguments)],
      [], tail, by rw [htail]; simp⟩

/-! ## Console bootstrap -/

/-- Claim C8: `CreateAndAttachConsole` is called at most once and only when
`AttachConsole(ATTACH_PARENT_PROCESS)` returned zero.  In a `_DEBUG` build it
is called exactly when `AttachConsole` returned zero; otherwise exactly when
`AttachConsole` returned zero and `IsDebuggerPresent()` returned non-zero, and
`IsDebuggerPresent` is not called when `AttachConsole` returned non-zero.
The console calls all come before `CoInitializeEx`, and none comes after. -/
theorem console_bootstrap (debug : Bool) (env : Env) (fuel : Nat)
    (inst prev : HINSTANCE) (command_line : String) (show_command : Int) :
    (callsTo Api.CreateAndAttachConsole
      (wWinMain debug env fuel inst prev command_line show_command).calls).length ≤ 1 ∧
    (Call.CreateAndAttachConsole ∈
        (wWinMain debug env fuel inst prev command_line show_command).calls →
      env.AttachConsole = 0) ∧
    (debug = true →
      (Call.CreateAndAttachConsole ∈
          (wWinMain debug env fuel inst prev command_line show_command).calls ↔
        env.AttachConsole = 0)) ∧
    (debug = false →
      (Call.CreateAndAttachConsole ∈
          (wWinMain debug env fuel inst prev command_line show_command).calls ↔
        env.AttachConsole = 0 ∧ env.IsDebuggerPresent ≠ 0)) ∧
    (debug = false → env.AttachConsole ≠ 0 →
      Call.IsDebuggerPresent ∉
        (wWinMain debug env fuel inst prev command_line show_command).calls) ∧
    callsTo Api.AttachConsole
        (wWinMain debug env fuel inst prev command_line show_command).calls =
      [Call.AttachConsole ConsoleProcess.ATTACH_PARENT_PROCESS] ∧
    ∃ console rest,
      (wWinMain debug env fuel inst prev command_line show_command).calls =
        console ++ Call.CoInitializeEx none COINIT.COINIT_APARTMENTTHREADED :: rest ∧
      (∀ c ∈ console, c.api = Api.AttachConsole ∨ c.api = Api.IsDebuggerPresent ∨
        c.api = Api.CreateAndAttachConsole) ∧
      (∀ c ∈ rest, c.api ≠ Api.AttachConsole ∧ c.api ≠ Api.IsDebuggerPresent ∧
        c.api ≠ Api.CreateAndAttachConsole ∧ c.api ≠ Api.CoInitializeEx) := by
  have hcreate : Call.CreateAndAttachConsole ∈
        (wWinMain debug env fuel inst prev command_line show_command).calls ↔
      Call.CreateAndAttachConsole ∈ attachConsole debug env := by
    have h₁ := mem_callsTo_api Call.CreateAndAttachConsole Api.CreateAndAttachConsole
      (wWinMain debug env fuel inst prev command_line show_command).calls rfl
    have h₂ := mem_callsTo_api Call.CreateAndAttachConsole Api.CreateAndAttachConsole
      (attachConsole debug env) rfl
    rw [callsTo_wWinMain_console debug env fuel inst prev command_line show_command _
      (Or.inr (Or.inr rfl))] at h₁
    exact h₁.symm.trans h₂
  have hdebugger : Call.IsDebuggerPresent ∈
        (wWinMain debug env fuel inst prev command_line show_command).calls ↔
      Call.IsDebuggerPresent ∈ attachConsole debug env := by
    have h₁ := mem_callsTo_api Call.IsDebuggerPresent Api.IsDebuggerPresent
      (wWinMain debug env fuel inst prev command_line show_command).calls rfl
    have h₂ := mem_callsTo_api Call.IsDebuggerPresent Api.IsDebuggerPresent
      (attachConsole debug env) rfl
    rw [callsTo_wWinMain_console debug env fuel inst prev command_line show_command _
      (Or.inr (Or.inl rfl))] at h₁
    exact h₁.symm.trans h₂
  refine ⟨?_, ?_, ?_, ?_, ?_, ?_, ?_⟩
  · rw [callsTo_wWinMain_console debug env fuel inst prev command_line show_command _
      (Or.inr (Or.inr rfl))]
    unfold attachConsole
    split_ifs <;> simp [callsTo_cons]
  · rw [hcreate]
    unfold attachConsole
    split_ifs <;> simp_all
  · intro hd
    rw [hcreate]
    subst hd
    unfold attachConsole
    split_ifs with h₁ <;> simp_all
  · intro hd
    rw [hcreate]
    subst hd
    unfold attachConsole
    split_ifs with h₁ h₂ h₃ <;> simp_all
  · intro hd hne
    rw [hdebugger]
    subst hd
    unfold attachConsole
    simp [hne]
  · rw [callsTo_wWinMain_console debug env fuel inst prev command_line show_command _
      (Or.inl rfl)]
    unfold attachConsole
    split_ifs <;> simp [callsTo_cons]
  · refine ⟨attachConsole debug env,
      [Call.DartProject "data",
       Call.set_ui_thread_policy UIThreadPolicy.RunOnSeparateThread,
       Call.GetCommandLineArguments,
       Call.set_dart_entrypoint_arguments
         (["--concurrent_gc", "--use_compactor"] ++ env.GetCommandLineArguments),
       Call.FlutterWindow
         { path := "data", ui_thread_policy := UIThreadPolicy.RunOnSeparateThread,
           dart_entrypoint_arguments :=
             ["--concurrent_gc", "--use_compactor"] ++ env.GetCommandLineArguments },
       Call.Create "stelliberty" ⟨10, 10⟩ ⟨900, 660⟩] ++
      (if env.Create then
        Call.SetQuitOnClose true :: (messageLoop env fuel 0).1 ++
          (if (messageLoop env fuel 0).2 then [ Call.CoUninitialize] else [])
       else []),
      ?_, attachConsole_api debug env, ?_⟩
    · rw [wWinMain_calls]
      simp only [List.append_assoc, List.cons_append, List.nil_append]
    · intro c hc
      simp only [List.mem_cons, List.mem_append, List.cons_append, List.nil_append] at hc
      have hloop := messageLoop_api env fuel 0 c
      rcases hc with rfl | rfl | rfl | rfl | rfl | rfl | hc
      · simp
      · simp
      · simp
      · simp
      · simp
      · simp
      · cases hcr : env.Create
        · simp [hcr] at hc
        · simp only [hcr, if_true, List.mem_cons, List.mem_append] at hc
          rcases hc with rfl | hc | hc
          · simp
          · rcases hloop hc with h | h | h <;> simp [h]
          · cases hl : (messageLoop env fuel 0).2
            · simp [hl] at hc
            · simp [hl] at hc
              subst hc
              simp

/-- Claim C8, in a build without `_DEBUG` where `AttachConsole` fails and a
debugger is present. -/
theorem console_bootstrap_witness :
    Call.CreateAndAttachConsole ∈ (wWinMain false envCreateFails 0 0 0 "" 1).calls :=
  ((console_bootstrap false envCreateFails 0 0 0 "" 1).2.2.2.1 rfl).2 ⟨rfl, by decide⟩

/-! ## Termination of the message loop -/

/-- Claim C9: the loop stops only on a zero result.  After any non-zero
result, negative ones included, the message is translated and dispatched and
`GetMessage` is called again.  With the window created, a run returns exactly
when some `GetMessage` call returns zero, it never returns `EXIT_FAILURE`,
and as long as every result so far is non-zero the run is still in the loop,
having made one `GetMessage` call per unit of fuel. -/
theorem message_loop_stops_only_on_zero (debug : Bool) (env : Env)
    (inst prev : HINSTANCE) (command_line : String) (show_command : Int) :
    (∀ fuel n, (env.GetMessage n).1 ≠ 0 →
      ∃ rest, (messageLoop env (fuel + 2) n).1 =
        Call.GetMessage none 0 0 :: Call.TranslateMessage (env.GetMessage n).2 ::
          Call.DispatchMessage (env.GetMessage n).2 :: Call.GetMessage none 0 0 :: rest) ∧
    (env.Create = true →
      ((∃ fuel, (wWinMain debug env fuel inst prev command_line show_command).exit ≠ none) ↔
        ∃ k, (env.GetMessage k).1 = 0)) ∧
    (env.Create = true → ∀ fuel,
      (wWinMain debug env fuel inst prev command_line show_command).exit ≠
        some EXIT_FAILURE) ∧
    (env.Create = true → ∀ fuel, (∀ k, k < fuel → (env.GetMessage k).1 ≠ 0) →
      (wWinMain debug env fuel inst prev command_line show_command).exit = none ∧
      (callsTo Api.GetMessage
        (wWinMain debug env fuel inst prev command_line show_command).calls).length = fuel ∧
      callsTo Api.CoUninitialize
        (wWinMain debug env fuel inst prev command_line show_command).calls = []) := by
  refine ⟨?_, ?_, ?_, ?_⟩
  · intro fuel n hne
    rw [messageLoop_succ_of_ne env (fuel + 1) n hne]
    by_cases hnext : (env.GetMessage (n + 1)).1 = 0
    · rw [messageLoop_succ_of_eq env fuel (n + 1) hnext]
      exact ⟨[], rfl⟩
    · rw [messageLoop_succ_of_ne env fuel (n + 1) hnext]
      exact ⟨_, rfl⟩
  · intro hc
    constructor
    · rintro ⟨fuel, hexit⟩
      rw [wWinMain_exit] at hexit
      cases hl : (messageLoop env fuel 0).2
      · simp [hc, hl] at hexit
      · obtain ⟨k, _, hz⟩ := (messageLoop_done_iff env fuel 0).1 hl
        exact ⟨k, by simpa using hz⟩
    · rintro ⟨k, hz⟩
      refine ⟨k + 1, ?_⟩
      have hdone : (messageLoop env (k + 1) 0).2 = true :=
        (messageLoop_done_iff env (k + 1) 0).2 ⟨k, Nat.lt_succ_self k, by simpa using hz⟩
      simp [wWinMain_exit, hc, hdone]
  · intro hc fuel
    rw [wWinMain_exit]
    cases hl : (messageLoop env fuel 0).2 <;> simp [hc, EXIT_SUCCESS, EXIT_FAILURE]
  · intro hc fuel hne
    have hrun : (messageLoop env fuel 0).2 = false :=
      messageLoop_running env fuel 0 (fun k hk => by simpa using hne k hk)
    have hlen := callsTo_GetMessage_messageLoop_running env fuel 0
      (fun k hk => by simpa using hne k hk)
    refine ⟨by simp [wWinMain_exit, hc, hrun], ?_, ?_⟩
    · rw [wWinMain_calls, callsTo_append, callsTo_append,
        callsTo_attachConsole debug env _ (by decide) (by decide) (by decide)]
      simp [hc, hrun, callsTo_cons, hlen]
    · rw [callsTo_wWinMain debug env fuel inst prev command_line show_command _
        (by decide) (by decide) (by decide) (by decide) (by decide) (by decide)]
      simp [hc, hrun, callsTo_cons]

/-- Claim C9, at an environment where every `GetMessage` call returns -1:
after four calls the run is still in the loop. -/
theorem message_loop_stops_only_on_zero_witness :
    (wWinMain true envGetMessageErrors 4 0 0 "" 1).exit = none ∧
      (callsTo Api.GetMessage (wWinMain true envGetMessageErrors 4 0 0 "" 1).calls).length = 4 :=
  ⟨((message_loop_stops_only_on_zero true envGetMessageErrors 0 0 "" 1).2.2.2 rfl 4
      (by decide)).1,
   ((message_loop_stops_only_on_zero true envGetMessageErrors 0 0 "" 1).2.2.2 rfl 4
      (by decide)).2.1⟩

/-! ## The parameters of the entry point -/

/-- Claim C10: `wWinMain` ignores `instance`, `prev`, `command_line` and
`show_command`.  Two runs in the same build against the same environment,
observed equally long, make the same calls with the same arguments and have
the same exit status whatever the four parameters are; the entrypoint
arguments are the two flags followed by the result of
`GetCommandLineArguments()`, in which the parameter `command_line` does not
occur. -/
theorem wWinMain_ignores_parameters (debug : Bool) (env : Env) (fuel : Nat)
    (inst prev : HINSTANCE) (command_line : String) (show_command : Int)
    (inst' prev' : HINSTANCE) (command_line' : String) (show_command' : Int) :
    wWinMain debug env fuel inst prev command_line show_command =
      wWinMain debug env fuel inst' prev' command_line' show_command' ∧
    callsTo Api.set_dart_entrypoint_arguments
        (wWinMain debug env fuel inst prev command_line show_command).calls =
      [Call.set_dart_entrypoint_arguments
        (["--concurrent_gc", "--use_compactor"] ++ env.GetCommandLineArguments)] ∧
    callsTo Api.Create
        (wWinMain debug env fuel inst prev command_line show_command).calls =
      [Call.Create "stelliberty" ⟨10, 10⟩ ⟨900, 660⟩] := by
  refine ⟨rfl, ?_, ?_⟩
  · rw [callsTo_wWinMain debug env fuel inst prev command_line show_command _
      (by decide) (by decide) (by decide) (by decide) (by decide) (by decide)]
    cases env.Create <;> cases (messageLoop env fuel 0).2 <;> simp [callsTo_cons]
  · rw [callsTo_wWinMain debug env fuel inst prev command_line show_command _
      (by decide) (by decide) (by decide) (by decide) (by decide) (by decide)]
    cases env.Create <;> cases (messageLoop env fuel 0).2 <;> simp [callsTo_cons]

end Runner
